import Mathlib

/-!
# Waitlist-confirmation estimator: a shallow embedding

This file embeds the waitlist-confirmation estimation engine of the
railbook repository (`ai-gateway/app/services/ml_service.py`, class
`MLService`) in Lean 4 and proves the specified properties of its outputs.

Modelling conventions:
* Python `float` arithmetic is idealised as exact rational arithmetic (`ℚ`);
  all constants of the source (`0.7`, `0.02`, ...) are exact decimal literals.
* Calendar dates are modelled by their proleptic-Gregorian ordinal day number
  (Python's `date.toordinal`), and the evaluation instant (`datetime.now()` in
  the source) by the ordinal of the evaluation date, as the design section of
  the specification directs (`evaluation_date` injected, day granularity).
  `weekday o = (o + 6) % 7` gives Monday = 0 .. Sunday = 6, as in Python.
* Fallible operations (`datetime.strptime`, `int(...)`) are modelled as
  `Option`-returning parsers, so the top-level prediction returns an `Option`.
-/

/- Batteries marks the `Rat` field operations irreducible; re-allow unfolding
so that concrete runs of the estimator reduce by `decide`. -/
attribute [local semireducible] Rat.ofScientific Rat.mul Rat.inv Rat.add
  Rat.sub

/-- A parsed calendar date (what `datetime.strptime(s, '%Y-%m-%d')` yields). -/
structure Date where
  year : ℤ
  month : ℤ
  day : ℤ
deriving DecidableEq, Repr

/-- Gregorian leap-year rule (Python `calendar.isleap`). -/
def isLeap (y : ℤ) : Bool :=
  if (y % 4 = 0 ∧ ¬ y % 100 = 0) ∨ y % 400 = 0 then true else false

/-- Number of days in month `m` of a (non-)leap year. -/
def monthLength (leap : Bool) (m : ℤ) : ℤ :=
  if m = 1 then 31 else if m = 2 then (if leap then 29 else 28)
  else if m = 3 then 31 else if m = 4 then 30 else if m = 5 then 31
  else if m = 6 then 30 else if m = 7 then 31 else if m = 8 then 31
  else if m = 9 then 30 else if m = 10 then 31 else if m = 11 then 30 else 31

/-- Days in the months strictly before month `m`. -/
def daysBeforeMonth (leap : Bool) (m : ℤ) : ℤ :=
  (if m = 1 then 0 else if m = 2 then 31 else if m = 3 then 59
   else if m = 4 then 90 else if m = 5 then 120 else if m = 6 then 151
   else if m = 7 then 181 else if m = 8 then 212 else if m = 9 then 243
   else if m = 10 then 273 else if m = 11 then 304 else 334)
  + (if leap = true ∧ 2 < m then 1 else 0)

/-- Proleptic-Gregorian ordinal of a date: `0001-01-01` is day 1
(Python `date.toordinal`). -/
def toOrdinal (d : Date) : ℤ :=
  365 * (d.year - 1) + (d.year - 1).fdiv 4 - (d.year - 1).fdiv 100
    + (d.year - 1).fdiv 400 + daysBeforeMonth (isLeap d.year) d.month + d.day

/-- Weekday of an ordinal day, Monday = 0 .. Sunday = 6 (Python
`date.weekday()`). -/
def weekday (o : ℤ) : ℤ :=
  (o + 6) % 7

/-- Python's two-argument `max` on floats (returns the first argument on
ties), used computably so concrete runs reduce in the kernel. -/
def pymax (a b : ℚ) : ℚ :=
  if b ≤ a then a else b

/-- Python's two-argument `min` on floats (returns the first argument on
ties). -/
def pymin (a b : ℚ) : ℚ :=
  if a ≤ b then a else b

/-- Python's two-argument `min` on ints. -/
def pyminZ (a b : ℤ) : ℤ :=
  if a ≤ b then a else b

/-- Value of a digit string (most significant digit first). -/
def digitsToNat (cs : List Char) : ℕ :=
  cs.foldl (fun a c => 10 * a + (c.toNat - 48)) 0

/-- Parse a non-empty all-digit character list to its value. -/
def parseDigits (cs : List Char) : Option ℕ :=
  if cs.isEmpty || !cs.all Char.isDigit then none else some (digitsToNat cs)

/-- Split a character list at every `'-'` (the separators of `%Y-%m-%d`). -/
def splitOnDash : List Char → List (List Char)
  | [] => [[]]
  | c :: rest =>
    let r := splitOnDash rest
    if c = '-' then [] :: r
    else
      match r with
      | [] => [[c]]
      | h :: t => (c :: h) :: t

/-- Model of `datetime.strptime(journey_date, '%Y-%m-%d')`: a four-digit year,
a one- or two-digit month and day, separated by dashes, forming a real
calendar date; anything else raises in Python, i.e. yields `none` here. -/
def parse_journey_date (s : String) : Option Date :=
  match splitOnDash s.toList with
  | [ys, ms, ds] =>
    match parseDigits ys, parseDigits ms, parseDigits ds with
    | some y, some m, some d =>
      if ys.length = 4 ∧ 1 ≤ ms.length ∧ ms.length ≤ 2
          ∧ 1 ≤ ds.length ∧ ds.length ≤ 2
          ∧ 1 ≤ y ∧ 1 ≤ m ∧ m ≤ 12 ∧ 1 ≤ d
          ∧ (d : ℤ) ≤ monthLength (isLeap (y : ℤ)) (m : ℤ)
      then some ⟨(y : ℤ), (m : ℤ), (d : ℤ)⟩
      else none
    | _, _, _ => none
  | _ => none

/-- Model of Python `int(train_number)` on the decimal strings the request
boundary admits (`^\d{5}$`): digits only. -/
def parse_int (s : String) : Option ℤ :=
  match parseDigits s.toList with
  | some n => some (n : ℤ)
  | none => none

/-- The feature dictionary built by `MLService._extract_features`. -/
structure Features where
  train_number : ℤ
  class_numeric : ℤ
  days_to_journey : ℤ
  waitlist_position : ℤ
  quota_numeric : ℤ
  is_weekend : Bool
  month : ℤ
  day_of_week : ℤ
deriving DecidableEq, Repr

/-- `MLService._encode_class`: `{"SL": 1, "3A": 2, "2A": 3, "1A": 4, "CC": 5,
"EC": 6, "2S": 7}` with default 1 for unknown codes. -/
def encode_class (class_code : String) : ℤ :=
  if class_code = "SL" then 1 else if class_code = "3A" then 2
  else if class_code = "2A" then 3 else if class_code = "1A" then 4
  else if class_code = "CC" then 5 else if class_code = "EC" then 6
  else if class_code = "2S" then 7 else 1

/-- `MLService._decode_class`: inverse table with default `"SL"`. -/
def decode_class (class_numeric : ℤ) : String :=
  if class_numeric = 1 then "SL" else if class_numeric = 2 then "3A"
  else if class_numeric = 3 then "2A" else if class_numeric = 4 then "1A"
  else if class_numeric = 5 then "CC" else if class_numeric = 6 then "EC"
  else if class_numeric = 7 then "2S" else "SL"

/-- `MLService._encode_quota`: `{"GENERAL": 1, "LADIES": 2,
"SENIOR_CITIZEN": 3, "TATKAL": 4}` with default 1. -/
def encode_quota (quota : String) : ℤ :=
  if quota = "GENERAL" then 1 else if quota = "LADIES" then 2
  else if quota = "SENIOR_CITIZEN" then 3 else if quota = "TATKAL" then 4
  else 1

/-- The `class_factors` lookup of `_calculate_confirmation_probability`:
`{"SL": 1.1, "3A": 0.9, "2A": 0.8, "1A": 0.7}.get(code, 1.0)`. -/
def class_factor_of (code : String) : ℚ :=
  if code = "SL" then 1.1 else if code = "3A" then 0.9
  else if code = "2A" then 0.8 else if code = "1A" then 0.7 else 1.0

/-- `MLService._extract_features` on an already-parsed journey date;
`eval_ord` is the ordinal of the evaluation date (`datetime.now()`). -/
def extract_features (train_number : ℤ) (class_code : String) (jd : Date)
    (waitlist_position : ℤ) (quota : String) (eval_ord : ℤ) : Features :=
  { train_number := train_number
    class_numeric := encode_class class_code
    days_to_journey := toOrdinal jd - eval_ord
    waitlist_position := waitlist_position
    quota_numeric := encode_quota quota
    is_weekend := if 5 ≤ weekday (toOrdinal jd) then true else false
    month := jd.month
    day_of_week := weekday (toOrdinal jd) }

/-- The product `base_prob * position_factor * days_factor * class_factor *
weekend_factor` of `_calculate_confirmation_probability`, before clamping. -/
def raw_probability (f : Features) : ℚ :=
  0.7 * pymax 0.1 (1.0 - (f.waitlist_position : ℚ) * 0.02)
      * pymin 1.2 (1.0 + (f.days_to_journey : ℚ) * 0.01)
      * class_factor_of (decode_class f.class_numeric)
      * (if f.is_weekend then 0.9 else 1.0)

/-- `MLService._calculate_confirmation_probability`: the factor product
clamped by `max(0.05, min(0.95, probability))`. -/
def calculate_confirmation_probability (f : Features) : ℚ :=
  pymax 0.05 (pymin 0.95 (raw_probability f))

/-- `MLService._calculate_confidence_interval`: a fixed `±0.1` margin, each
bound clamped to `[0, 1]`. -/
def calculate_confidence_interval (probability : ℚ) : ℚ × ℚ :=
  (pymax 0.0 (probability - 0.1), pymin 1.0 (probability + 0.1))

/-- `MLService._estimate_confirmation_date` on the parsed journey date's
ordinal; `eval_ord` models `datetime.now()`. Python `//` is `Int.fdiv`. -/
def estimate_confirmation_date (journey_ord : ℤ) (probability : ℚ)
    (waitlist_position : ℤ) (eval_ord : ℤ) : Option ℤ :=
  if probability < 0.3 then none
  else
    let days_before : ℤ :=
      if probability > 0.8 then pyminZ 15 (waitlist_position.fdiv 2)
      else if probability > 0.6 then pyminZ 10 (waitlist_position.fdiv 3)
      else pyminZ 5 (waitlist_position.fdiv 5)
    let estimated := journey_ord - days_before
    if estimated < eval_ord then none else some estimated

/-- `MLService._get_probability_category`. -/
def get_probability_category (probability : ℚ) : String :=
  if probability ≥ 0.8 then "Very High"
  else if probability ≥ 0.6 then "High"
  else if probability ≥ 0.4 then "Medium"
  else if probability ≥ 0.2 then "Low"
  else "Very Low"

/-- The result dictionary of `predict_waitlist_confirmation` (the wall-clock
`prediction_timestamp` is outside the embedded computation and omitted). -/
structure PredictionResult where
  train_number : String
  class_code : String
  journey_date : String
  current_waitlist_position : ℤ
  confirmation_probability : ℚ
  probability_category : String
  estimated_confirmation_date : Option ℤ
  confidence_interval : ℚ × ℚ
  ml_model_version : String
deriving DecidableEq, Repr

/-- `MLService.predict_waitlist_confirmation`: feature extraction, scoring,
confidence interval and date estimate. `none` models the exceptions raised by
`strptime`/`int` on malformed strings; everything after parsing is total. -/
def predict_waitlist_confirmation (train_number class_code journey_date : String)
    (waitlist_position : ℤ) (quota : String) (eval_ord : ℤ) :
    Option PredictionResult :=
  match parse_journey_date journey_date, parse_int train_number with
  | some jd, some tn =>
    let features :=
      extract_features tn class_code jd waitlist_position quota eval_ord
    let probability := calculate_confirmation_probability features
    some
      { train_number := train_number
        class_code := class_code
        journey_date := journey_date
        current_waitlist_position := waitlist_position
        confirmation_probability := probability
        probability_category := get_probability_category probability
        estimated_confirmation_date :=
          estimate_confirmation_date (toOrdinal jd) probability
            waitlist_position eval_ord
        confidence_interval := calculate_confidence_interval probability
        ml_model_version := "v2.0.0" }
  | _, _ => none

/-- Rank of a category label in the order Very Low < Low < Medium < High <
Very High (used to state monotonicity of the labelling). -/
def category_rank (c : String) : ℕ :=
  if c = "Very Low" then 0 else if c = "Low" then 1
  else if c = "Medium" then 2 else if c = "High" then 3 else 4

/-! ## Helper lemmas -/

lemma pymax_eq_max (a b : ℚ) : pymax a b = max a b := by
  unfold pymax
  split_ifs with h
  · exact (max_eq_left h).symm
  · exact (max_eq_right (le_of_not_le h)).symm

lemma pymin_eq_min (a b : ℚ) : pymin a b = min a b := by
  unfold pymin
  split_ifs with h
  · exact (min_eq_left h).symm
  · exact (min_eq_right (le_of_not_le h)).symm

lemma pyminZ_eq_min (a b : ℤ) : pyminZ a b = min a b := by
  unfold pyminZ
  split_ifs with h
  · exact (min_eq_left h).symm
  · exact (min_eq_right (le_of_not_le h)).symm

lemma calc_prob_eq_clamp (f : Features) :
    calculate_confirmation_probability f =
      max 0.05 (min 0.95 (raw_probability f)) := by
  unfold calculate_confirmation_probability
  rw [pymax_eq_max, pymin_eq_min]

lemma prob_lower_bound (f : Features) :
    0.05 ≤ calculate_confirmation_probability f := by
  rw [calc_prob_eq_clamp]
  exact le_max_left _ _

lemma prob_upper_bound (f : Features) :
    calculate_confirmation_probability f ≤ 0.95 := by
  rw [calc_prob_eq_clamp]
  exact max_le (by norm_num) (min_le_left _ _)

lemma predict_some_elim {tn cc jd q : String} {w e : ℤ} {r : PredictionResult}
    (h : predict_waitlist_confirmation tn cc jd w q e = some r) :
    ∃ jdate n, parse_journey_date jd = some jdate ∧ parse_int tn = some n ∧
      r = { train_number := tn
            class_code := cc
            journey_date := jd
            current_waitlist_position := w
            confirmation_probability := calculate_confirmation_probability
              (extract_features n cc jdate w q e)
            probability_category := get_probability_category
              (calculate_confirmation_probability
                (extract_features n cc jdate w q e))
            estimated_confirmation_date := estimate_confirmation_date
              (toOrdinal jdate)
              (calculate_confirmation_probability
                (extract_features n cc jdate w q e)) w e
            confidence_interval := calculate_confidence_interval
              (calculate_confirmation_probability
                (extract_features n cc jdate w q e))
            ml_model_version := "v2.0.0" } := by
  unfold predict_waitlist_confirmation at h
  cases hjd : parse_journey_date jd with
  | none => rw [hjd] at h; simp at h
  | some jdate =>
    cases ht : parse_int tn with
    | none => rw [hjd, ht] at h; simp at h
    | some n =>
      rw [hjd, ht] at h
      simp only [Option.some.injEq] at h
      exact ⟨jdate, n, rfl, rfl, h.symm⟩

/-! ## Claims -/

/-- C1: for every request accepted by the pipeline, the returned
`confirmation_probability` is exactly the base 0.7 times the position,
lead-time, class and weekend factors, clamped by `max 0.05 (min 0.95 ·)`,
and therefore always lies in the closed interval `[0.05, 0.95]`. -/
theorem C1_probability_formula_and_bounds
    (tn cc jd q : String) (w e : ℤ) (jdate : Date) (r : PredictionResult)
    (hjd : parse_journey_date jd = some jdate)
    (h : predict_waitlist_confirmation tn cc jd w q e = some r) :
    r.confirmation_probability =
      max 0.05 (min 0.95
        (0.7 * max 0.1 (1.0 - (w : ℚ) * 0.02)
             * min 1.2 (1.0 + ((toOrdinal jdate - e : ℤ) : ℚ) * 0.01)
             * class_factor_of (decode_class (encode_class cc))
             * (if 5 ≤ weekday (toOrdinal jdate) then (0.9 : ℚ) else 1.0)))
    ∧ 0.05 ≤ r.confirmation_probability
    ∧ r.confirmation_probability ≤ 0.95 := by
  obtain ⟨jdate', n, hjd', _, hr⟩ := predict_some_elim h
  rw [hjd] at hjd'
  obtain rfl := Option.some_injective _ hjd'
  subst hr
  clear h
  refine ⟨?_, prob_lower_bound _, prob_upper_bound _⟩
  by_cases hwk : 5 ≤ weekday (toOrdinal jdate)
  · simp [calculate_confirmation_probability, raw_probability,
      extract_features, hwk, pymax_eq_max, pymin_eq_min]
  · simp [calculate_confirmation_probability, raw_probability,
      extract_features, hwk, pymax_eq_max, pymin_eq_min]

/-- C2: the confidence interval is the pair
`(max 0 (p - 0.1), min 1 (p + 0.1))` around the returned probability `p`;
consequently its lower bound is at most `p`, its upper bound is at least `p`,
and both bounds lie in `[0, 1]`. -/
theorem C2_confidence_interval
    (tn cc jd q : String) (w e : ℤ) (r : PredictionResult)
    (h : predict_waitlist_confirmation tn cc jd w q e = some r) :
    r.confidence_interval =
      (max 0.0 (r.confirmation_probability - 0.1),
       min 1.0 (r.confirmation_probability + 0.1))
    ∧ r.confidence_interval.1 ≤ r.confirmation_probability
    ∧ r.confirmation_probability ≤ r.confidence_interval.2
    ∧ 0 ≤ r.confidence_interval.1 ∧ r.confidence_interval.1 ≤ 1
    ∧ 0 ≤ r.confidence_interval.2 ∧ r.confidence_interval.2 ≤ 1 := by
  obtain ⟨jdate, n, _, _, hr⟩ := predict_some_elim h
  have hlo := prob_lower_bound (extract_features n cc jdate w q e)
  have hhi := prob_upper_bound (extract_features n cc jdate w q e)
  subst hr
  clear h
  simp only [calculate_confidence_interval, pymax_eq_max, pymin_eq_min]
  refine ⟨trivial, ?_, ?_, ?_, ?_, ?_, ?_⟩
  · exact max_le (by linarith) (by linarith)
  · exact le_min (by linarith) (by linarith)
  · exact le_trans (by norm_num) (le_max_left _ _)
  · exact max_le (by norm_num) (by linarith)
  · exact le_min (by norm_num) (by linarith)
  · exact le_trans (min_le_left _ _) (by norm_num)

lemma class_factor_pos (code : String) : 0 < class_factor_of code := by
  unfold class_factor_of
  split_ifs <;> norm_num

lemma calc_prob_antitone_in_position (f1 f2 : Features)
    (hd : f1.days_to_journey = f2.days_to_journey)
    (hc : f1.class_numeric = f2.class_numeric)
    (hk : f1.is_weekend = f2.is_weekend)
    (hw : f1.waitlist_position ≤ f2.waitlist_position) :
    calculate_confirmation_probability f2 ≤
      calculate_confirmation_probability f1 := by
  have hpf : max 0.1 (1.0 - (f2.waitlist_position : ℚ) * 0.02) ≤
      max 0.1 (1.0 - (f1.waitlist_position : ℚ) * 0.02) := by
    have : (f1.waitlist_position : ℚ) ≤ (f2.waitlist_position : ℚ) :=
      Int.cast_le.2 hw
    apply max_le_max le_rfl
    nlinarith
  have hpf1 : (0.1 : ℚ) ≤ max 0.1 (1.0 - (f1.waitlist_position : ℚ) * 0.02) :=
    le_max_left _ _
  have hpf2 : (0.1 : ℚ) ≤ max 0.1 (1.0 - (f2.waitlist_position : ℚ) * 0.02) :=
    le_max_left _ _
  have hraw : ∀ f : Features, raw_probability f =
      max 0.1 (1.0 - (f.waitlist_position : ℚ) * 0.02) *
        (0.7 * min 1.2 (1.0 + (f.days_to_journey : ℚ) * 0.01)
            * class_factor_of (decode_class f.class_numeric)
            * (if f.is_weekend then 0.9 else 1.0)) := by
    intro f
    unfold raw_probability
    rw [pymax_eq_max, pymin_eq_min]
    ring
  set C : ℚ := 0.7 * min 1.2 (1.0 + (f1.days_to_journey : ℚ) * 0.01)
      * class_factor_of (decode_class f1.class_numeric)
      * (if f1.is_weekend then 0.9 else 1.0) with hC
  have hr1 : raw_probability f1 =
      max 0.1 (1.0 - (f1.waitlist_position : ℚ) * 0.02) * C := hraw f1
  have hr2 : raw_probability f2 =
      max 0.1 (1.0 - (f2.waitlist_position : ℚ) * 0.02) * C := by
    rw [hraw f2, ← hd, ← hc, ← hk, hC]
  rw [calc_prob_eq_clamp, calc_prob_eq_clamp]
  rcases le_or_lt 0 C with hCpos | hCneg
  · have : raw_probability f2 ≤ raw_probability f1 := by
      rw [hr1, hr2]
      exact mul_le_mul_of_nonneg_right hpf hCpos
    exact max_le_max le_rfl (min_le_min le_rfl this)
  · have hneg1 : raw_probability f1 < 0 := by
      rw [hr1]
      exact mul_neg_of_pos_of_neg (by linarith) hCneg
    have hneg2 : raw_probability f2 < 0 := by
      rw [hr2]
      exact mul_neg_of_pos_of_neg (by linarith) hCneg
    rw [min_eq_right (by linarith : raw_probability f1 ≤ 0.95),
      min_eq_right (by linarith : raw_probability f2 ≤ 0.95),
      max_eq_left (by linarith : raw_probability f1 ≤ 0.05),
      max_eq_left (by linarith : raw_probability f2 ≤ 0.05)]

/-- C3: holding train, class, journey date, quota and evaluation date fixed,
a strictly larger waitlist position never yields a strictly larger
confirmation probability: the returned (clamped) probability is monotone
non-increasing in the waitlist position. -/
theorem C3_probability_antitone_in_waitlist_position
    (tn cc jd q : String) (w1 w2 e : ℤ) (r1 r2 : PredictionResult)
    (h1 : predict_waitlist_confirmation tn cc jd w1 q e = some r1)
    (h2 : predict_waitlist_confirmation tn cc jd w2 q e = some r2)
    (hw : w1 < w2) :
    r2.confirmation_probability ≤ r1.confirmation_probability := by
  obtain ⟨jdate1, n1, hjd1, htn1, hr1⟩ := predict_some_elim h1
  obtain ⟨jdate2, n2, hjd2, htn2, hr2⟩ := predict_some_elim h2
  rw [hjd1] at hjd2
  obtain rfl := Option.some_injective _ hjd2
  rw [htn1] at htn2
  obtain rfl := Option.some_injective _ htn2
  subst hr1
  subst hr2
  exact calc_prob_antitone_in_position _ _ rfl rfl rfl (le_of_lt hw)

lemma estimate_some_ge {j : ℤ} {p : ℚ} {w e d : ℤ}
    (h : estimate_confirmation_date j p w e = some d) : e ≤ d := by
  unfold estimate_confirmation_date at h
  split_ifs at h <;> simp_all <;> omega

/-- C4: whenever the returned probability is strictly below 0.3 the returned
date estimate is `None`; and at probability exactly 0.3 the date estimator
does not take the low-probability early return but computes the date
(journey minus `min 5 (position // 5)`, discarded only if past). -/
theorem C4_date_cutoff_strictly_below_threshold
    (tn cc jd q : String) (w e : ℤ) (r : PredictionResult) (j w' e' : ℤ)
    (h : predict_waitlist_confirmation tn cc jd w q e = some r) :
    (r.confirmation_probability < 0.3 → r.estimated_confirmation_date = none) ∧
    (estimate_confirmation_date j 0.3 w' e' =
      if j - min 5 (Int.fdiv w' 5) < e' then none
      else some (j - min 5 (Int.fdiv w' 5))) := by
  obtain ⟨jdate, n, _, _, hr⟩ := predict_some_elim h
  subst hr
  clear h
  constructor
  · intro hp
    dsimp only at hp ⊢
    unfold estimate_confirmation_date
    rw [if_pos hp]
  · simp only [estimate_confirmation_date]
    norm_num [pyminZ_eq_min]

/-- C5: whenever the returned `estimated_confirmation_date` is present, it is
not strictly before the evaluation date: a computed date falling strictly
before the evaluation date is replaced by `None`. -/
theorem C5_date_never_before_evaluation
    (tn cc jd q : String) (w e d : ℤ) (r : PredictionResult)
    (h : predict_waitlist_confirmation tn cc jd w q e = some r)
    (hd : r.estimated_confirmation_date = some d) : e ≤ d := by
  obtain ⟨jdate, n, _, _, hr⟩ := predict_some_elim h
  subst hr
  exact estimate_some_ge hd

/-- C6 counterexample: for the unknown class code `"XX"` (all else equal, 25
waitlisted, journey `2026-12-16` evaluated on the journey day), the estimator
yields probability 0.385 — the `"SL"` factor 1.1, not the default factor 1.0
applied to `"CC"`, which yields 0.35. This refutes the claim that an unknown
class code gets class factor 1.0. -/
theorem C6_counterexample_unknown_class_factor :
    (predict_waitlist_confirmation "12345" "XX" "2026-12-16" 25 "GENERAL"
        739966).map PredictionResult.confirmation_probability
      = some 0.385 ∧
    (predict_waitlist_confirmation "12345" "CC" "2026-12-16" 25 "GENERAL"
        739966).map PredictionResult.confirmation_probability
      = some 0.35 ∧
    (0.385 : ℚ) ≠ 0.35 := by
  refine ⟨by decide, by decide, by norm_num⟩

/-- C6 (amended): an input whose class code is outside
{SL, 3A, 2A, 1A, CC, EC, 2S} does not fail; it falls back to the default
rank 1, which decodes to `"SL"` and hence to the class factor 1.1, so the
unknown-class prediction (probability, category, interval and date estimate)
coincides with the prediction for class `"SL"`. -/
theorem C6_amended_unknown_class_matches_SL
    (tn jd q cc : String) (w e : ℤ)
    (h1 : cc ≠ "SL") (h2 : cc ≠ "3A") (h3 : cc ≠ "2A") (h4 : cc ≠ "1A")
    (h5 : cc ≠ "CC") (h6 : cc ≠ "EC") (h7 : cc ≠ "2S") :
    (predict_waitlist_confirmation tn cc jd w q e).map
        (fun r => (r.confirmation_probability, r.probability_category,
          r.confidence_interval, r.estimated_confirmation_date)) =
      (predict_waitlist_confirmation tn "SL" jd w q e).map
        (fun r => (r.confirmation_probability, r.probability_category,
          r.confidence_interval, r.estimated_confirmation_date)) := by
  have hec : encode_class cc = 1 := by
    unfold encode_class
    rw [if_neg h1, if_neg h2, if_neg h3, if_neg h4, if_neg h5, if_neg h6,
      if_neg h7]
  unfold predict_waitlist_confirmation
  cases hp : parse_journey_date jd <;> cases ht : parse_int tn <;> try rfl
  dsimp only [Option.map]
  unfold extract_features
  rw [hec]
  rfl

/-- C7: the category label is determined by inclusive lower-bound bands
evaluated top-down (≥0.8 Very High; [0.6,0.8) High; [0.4,0.6) Medium;
[0.2,0.4) Low; below 0.2 Very Low), and is monotone non-decreasing in the
probability under Very Low < Low < Medium < High < Very High. -/
theorem C7_category_bands_and_monotone (p q : ℚ) :
    (0.8 ≤ p → get_probability_category p = "Very High") ∧
    (0.6 ≤ p ∧ p < 0.8 → get_probability_category p = "High") ∧
    (0.4 ≤ p ∧ p < 0.6 → get_probability_category p = "Medium") ∧
    (0.2 ≤ p ∧ p < 0.4 → get_probability_category p = "Low") ∧
    (p < 0.2 → get_probability_category p = "Very Low") ∧
    (p ≤ q → category_rank (get_probability_category p) ≤
      category_rank (get_probability_category q)) := by
  refine ⟨fun h => ?_, fun h => ?_, fun h => ?_, fun h => ?_, fun h => ?_,
    fun hpq => ?_⟩ <;>
    [skip; obtain ⟨ha, hb⟩ := h; obtain ⟨ha, hb⟩ := h;
      obtain ⟨ha, hb⟩ := h; skip; skip] <;>
    unfold get_probability_category <;>
    split_ifs <;>
    first
    | rfl
    | decide
    | (exfalso; linarith)

/-- C8: for two requests identical up to the journey date, one falling on a
Saturday or Sunday and the other on a weekday, with equal lead times (so the
position, lead-time and class factors agree), the pre-clamp probability of
the weekend case is exactly 0.9 times that of the weekday case. -/
theorem C8_weekend_multiplier_pre_clamp
    (tn w : ℤ) (cc q : String) (d1 d2 : Date) (e1 e2 : ℤ)
    (hwk1 : 5 ≤ weekday (toOrdinal d1))
    (hwk2 : weekday (toOrdinal d2) < 5)
    (hlead : toOrdinal d1 - e1 = toOrdinal d2 - e2) :
    raw_probability (extract_features tn cc d1 w q e1) =
      0.9 * raw_probability (extract_features tn cc d2 w q e2) := by
  unfold raw_probability extract_features
  dsimp only
  rw [if_pos hwk1, if_neg (not_le.2 hwk2), hlead]
  simp only [if_true, if_false, Bool.false_eq_true, if_neg]
  ring

/-- C9: the estimator is total on well-formed requests: a parseable
journey date, a 5-digit numeric train number and a waitlist position in
1..500 always produce a complete result (only the
`estimated_confirmation_date` field of the result type is optional). -/
theorem C9_estimator_total_for_wellformed_input
    (tn cc jd q : String) (w e : ℤ) (jdate : Date)
    (hjd : parse_journey_date jd = some jdate)
    (hlen : tn.toList.length = 5)
    (hdig : tn.toList.all Char.isDigit = true)
    (hw1 : 1 ≤ w) (hw2 : w ≤ 500) :
    (predict_waitlist_confirmation tn cc jd w q e).isSome = true := by
  have hne : tn.toList.isEmpty = false := by
    cases htl : tn.toList with
    | nil => rw [htl] at hlen; simp at hlen
    | cons a l => rfl
  have htn : parse_int tn = some ((digitsToNat tn.toList : ℕ) : ℤ) := by
    unfold parse_int parseDigits
    rw [hne, hdig]
    rfl
  unfold predict_waitlist_confirmation
  rw [hjd, htn]
  rfl

/-- C10: the quota string is encoded into the feature vector but read by no
downstream computation: two requests differing only in quota (known or
unknown) produce identical results in every field. -/
theorem C10_quota_has_no_influence
    (tn cc jd q1 q2 : String) (w e : ℤ) :
    predict_waitlist_confirmation tn cc jd w q1 e =
      predict_waitlist_confirmation tn cc jd w q2 e := by
  unfold predict_waitlist_confirmation
  cases hp : parse_journey_date jd <;> cases ht : parse_int tn <;> rfl

/-- Witness for C1 at a concrete request (class 3A, position 25, 30 days of
lead time): the hypotheses are satisfiable and the bounds hold at 0.378. -/
theorem C1_witness :
    (predict_waitlist_confirmation "12345" "3A" "2026-12-16" 25 "GENERAL"
        739936).map PredictionResult.confirmation_probability
      = some (189/500)
    ∧ 0.05 ≤ (189/500 : ℚ) ∧ (189/500 : ℚ) ≤ 0.95 := by
  have h : predict_waitlist_confirmation "12345" "3A" "2026-12-16" 25
      "GENERAL" 739936 =
      some { train_number := "12345", class_code := "3A"
             journey_date := "2026-12-16", current_waitlist_position := 25
             confirmation_probability := 189/500
             probability_category := "Low"
             estimated_confirmation_date := some 739961
             confidence_interval := (139/500, 239/500)
             ml_model_version := "v2.0.0" } := by decide
  have h2 := C1_probability_formula_and_bounds "12345" "3A" "2026-12-16"
    "GENERAL" 25 739936 ⟨2026, 12, 16⟩ _ (by decide) h
  exact ⟨by decide, h2.2.1, h2.2.2⟩

/-- Witness for C2 at a concrete request (class 2A, position 10): the
interval (0.4376, 0.6376) straddles the returned probability 0.5376. -/
theorem C2_witness :
    (predict_waitlist_confirmation "12001" "2A" "2026-12-16" 10 "TATKAL"
        739936).map (fun r => r.confidence_interval)
      = some (547/1250, 797/1250)
    ∧ (547/1250 : ℚ) ≤ 336/625 ∧ (336/625 : ℚ) ≤ 797/1250 := by
  have h : predict_waitlist_confirmation "12001" "2A" "2026-12-16" 10
      "TATKAL" 739936 =
      some { train_number := "12001", class_code := "2A"
             journey_date := "2026-12-16", current_waitlist_position := 10
             confirmation_probability := 336/625
             probability_category := "Medium"
             estimated_confirmation_date := some 739964
             confidence_interval := (547/1250, 797/1250)
             ml_model_version := "v2.0.0" } := by decide
  have h2 := C2_confidence_interval "12001" "2A" "2026-12-16" "TATKAL" 10
    739936 _ h
  exact ⟨by decide, h2.2.1, h2.2.2.1⟩

/-- Witness for C3: moving from waitlist position 25 to 26 (all else equal)
lowers the probability from 0.378 to 0.36288. -/
theorem C3_witness :
    (predict_waitlist_confirmation "12345" "3A" "2026-12-16" 26 "GENERAL"
        739936).map PredictionResult.confirmation_probability
      = some (1134/3125)
    ∧ (predict_waitlist_confirmation "12345" "3A" "2026-12-16" 25 "GENERAL"
        739936).map PredictionResult.confirmation_probability
      = some (189/500)
    ∧ (1134/3125 : ℚ) ≤ 189/500 := by
  have h1 : predict_waitlist_confirmation "12345" "3A" "2026-12-16" 25
      "GENERAL" 739936 =
      some { train_number := "12345", class_code := "3A"
             journey_date := "2026-12-16", current_waitlist_position := 25
             confirmation_probability := 189/500
             probability_category := "Low"
             estimated_confirmation_date := some 739961
             confidence_interval := (139/500, 239/500)
             ml_model_version := "v2.0.0" } := by decide
  have h2 : predict_waitlist_confirmation "12345" "3A" "2026-12-16" 26
      "GENERAL" 739936 =
      some { train_number := "12345", class_code := "3A"
             journey_date := "2026-12-16", current_waitlist_position := 26
             confirmation_probability := 1134/3125
             probability_category := "Low"
             estimated_confirmation_date := some 739961
             confidence_interval := (1643/6250, 2893/6250)
             ml_model_version := "v2.0.0" } := by decide
  exact ⟨by decide, by decide,
    C3_probability_antitone_in_waitlist_position "12345" "3A" "2026-12-16"
      "GENERAL" 25 26 739936 _ _ h1 h2 (by decide)⟩

/-- Witness for C4: at probability 0.08316 (< 0.3) the date estimate is
`None`, and the date estimator run directly at probability 0.3 does compute
a date. -/
theorem C4_witness :
    (predict_waitlist_confirmation "12345" "SL" "2026-12-20" 500 "GENERAL"
        739950).map (fun r => r.estimated_confirmation_date) = some none
    ∧ estimate_confirmation_date 739970 0.3 25 739950 = some 739965 := by
  have h : predict_waitlist_confirmation "12345" "SL" "2026-12-20" 500
      "GENERAL" 739950 =
      some { train_number := "12345", class_code := "SL"
             journey_date := "2026-12-20", current_waitlist_position := 500
             confirmation_probability := 2079/25000
             probability_category := "Very Low"
             estimated_confirmation_date := none
             confidence_interval := (0, 4579/25000)
             ml_model_version := "v2.0.0" } := by decide
  have h2 := C4_date_cutoff_strictly_below_threshold "12345" "SL"
    "2026-12-20" "GENERAL" 500 739950 _ 739970 25 739950 h
  constructor
  · rw [h]
    exact congrArg some (h2.1 (by decide))
  · rw [h2.2]
    have hf : Int.fdiv 25 5 = 5 := by decide
    rw [hf, min_self, if_neg (by norm_num : ¬ (739970 - 5 : ℤ) < 739950)]
    norm_num

/-- Witness for C5: the returned date 2026-12-11 is not before the
evaluation date 2026-11-16. -/
theorem C5_witness :
    (predict_waitlist_confirmation "12345" "3A" "2026-12-16" 25 "GENERAL"
        739936).map (fun r => r.estimated_confirmation_date)
      = some (some 739961)
    ∧ (739936 : ℤ) ≤ 739961 := by
  have h : predict_waitlist_confirmation "12345" "3A" "2026-12-16" 25
      "GENERAL" 739936 =
      some { train_number := "12345", class_code := "3A"
             journey_date := "2026-12-16", current_waitlist_position := 25
             confirmation_probability := 189/500
             probability_category := "Low"
             estimated_confirmation_date := some 739961
             confidence_interval := (139/500, 239/500)
             ml_model_version := "v2.0.0" } := by decide
  exact ⟨by decide, C5_date_never_before_evaluation "12345" "3A"
    "2026-12-16" "GENERAL" 25 739936 739961 _ h (by decide)⟩

/-- Witness for C6 (amended): the unknown class code `"XX"` yields exactly
the `"SL"` outputs. -/
theorem C6_amended_witness :
    (predict_waitlist_confirmation "12345" "XX" "2026-12-16" 25 "GENERAL"
        739966).map
        (fun r => (r.confirmation_probability, r.probability_category,
          r.confidence_interval, r.estimated_confirmation_date)) =
      (predict_waitlist_confirmation "12345" "SL" "2026-12-16" 25 "GENERAL"
        739966).map
        (fun r => (r.confirmation_probability, r.probability_category,
          r.confidence_interval, r.estimated_confirmation_date)) :=
  C6_amended_unknown_class_matches_SL "12345" "2026-12-16" "GENERAL" "XX"
    25 739966 (by decide) (by decide) (by decide) (by decide) (by decide)
    (by decide) (by decide)

/-- Witness for C7: a band membership and a monotone comparison at concrete
probabilities. -/
theorem C7_witness :
    get_probability_category 0.85 = "Very High" ∧
    category_rank (get_probability_category 0.5) ≤
      category_rank (get_probability_category 0.7) :=
  ⟨(C7_category_bands_and_monotone 0.85 0.85).1 (by norm_num),
   (C7_category_bands_and_monotone 0.5 0.7).2.2.2.2.2 (by norm_num)⟩

/-- Witness for C8: Saturday 2026-12-19 versus Wednesday 2026-12-16 with
equal 30-day lead time; 0.3402 = 0.9 × 0.378. -/
theorem C8_witness :
    raw_probability
        (extract_features 12345 "3A" ⟨2026, 12, 19⟩ 25 "GENERAL" 739939) =
      0.9 * raw_probability
        (extract_features 12345 "3A" ⟨2026, 12, 16⟩ 25 "GENERAL" 739936) :=
  C8_weekend_multiplier_pre_clamp 12345 25 "3A" "GENERAL" ⟨2026, 12, 19⟩
    ⟨2026, 12, 16⟩ 739939 739936 (by decide) (by decide) (by decide)

/-- Witness for C9: a well-formed request produces a result. -/
theorem C9_witness :
    (predict_waitlist_confirmation "12345" "3A" "2026-12-16" 10 "GENERAL"
      739936).isSome = true :=
  C9_estimator_total_for_wellformed_input "12345" "3A" "2026-12-16"
    "GENERAL" 10 739936 ⟨2026, 12, 16⟩ (by decide) (by decide) (by decide)
    (by decide) (by decide)
